import Mathlib

/-!
Verification of the batching bulk-submission pipeline in
`_examples/bulk/bulk.go` of karencfv/go-elasticsearch.

The Go program generates `count` articles, appends each record's bulk
payload to a buffer, and flushes the buffer as one Bulk request whenever
`i > 0 && i%batch == 0 || i == count-1` (0-based loop index `i`).
Responses are reconciled into `numIndexed` / `numErrors`, and the final
report exits non-zero iff `numErrors > 0`.

We embed the batching loop, the per-batch response handling, and the
final report as executable Lean definitions, and settle the specification
claims about them.
-/

namespace Bulk

/-- The flush condition at loop index `i` (0-based), from
`if i > 0 && i%batch == 0 || i == count-1` in the source. Go's `&&` binds
tighter than `||`. -/
def flushAt (count batch i : Nat) : Bool :=
  (decide (0 < i) && decide (i % batch = 0)) || decide (i = count - 1)

/-- One iteration of the batching loop at index `i`: append record `i` to
the buffer; if the flush condition holds, emit the buffer as a batch and
reset it. State is `(buffer, emitted batches)`. -/
def batchStep (count batch : Nat) (acc : List Nat × List (List Nat)) (i : Nat) :
    List Nat × List (List Nat) :=
  let buf := acc.1 ++ [i]
  if flushAt count batch i then ([], acc.2 ++ [buf]) else (buf, acc.2)

/-- The batching loop over record positions `0 .. count-1`, returning the
final `(buffer, emitted batches)` state. -/
def batchRun (count batch : Nat) : List Nat × List (List Nat) :=
  (List.range count).foldl (batchStep count batch) ([], [])

/-- The list of emitted batches, each a list of record positions. -/
def batches (count batch : Nat) : List (List Nat) :=
  (batchRun count batch).2

/-- The `numBatches` computation of the source (lines 125-129):
`count/batch`, plus one when `count % batch != 0`. This is `⌈count/batch⌉`. -/
def numBatchesGo (count batch : Nat) : Nat :=
  if count % batch = 0 then count / batch else count / batch + 1

/-- The nested `caused_by` object of a decoded item error
(`Cause` field of the source's `bulkResponse` struct). -/
structure Cause where
  type : String
  reason : String

/-- The `error` object of a decoded item (`Error` field of the source's
`bulkResponse` struct): type, reason, and one level of `caused_by`. -/
structure ItemError where
  type : String
  reason : String
  cause : Cause

/-- One element of the `items` array of a decoded bulk response
(the `Index` payload of the source's `bulkResponse` struct). -/
structure Item where
  id : String
  result : String
  status : Nat
  error : ItemError

/-- The running counters `numIndexed` and `numErrors` of the source. -/
structure Stats where
  numIndexed : Nat
  numErrors : Nat
deriving DecidableEq, Repr

/-- The decoded `{type, reason}` of a whole-request error body
(`raw["error"]` in the source). -/
structure WholeError where
  type : String
  reason : String

/-- The response received for one Bulk request, after the transport layer:
either an HTTP-level error response (`res.IsError()`) or an OK response.
`none` for the decoded body models a body that fails JSON decoding. -/
inductive Body where
  | errorBody (raw : Option WholeError)
  | okBody (blk : Option (List Item))

/-- The per-item reconciliation loop (source lines 196-211): an item with
`status > 201` increments `numErrors`, any other increments `numIndexed`. -/
def reconcileItems (items : List Item) (stats : Stats) : Stats :=
  items.foldl
    (fun s d =>
      if d.status > 201 then { s with numErrors := s.numErrors + 1 }
      else { s with numIndexed := s.numIndexed + 1 })
    stats

/-- The fatal message of the source's `log.Fatalf("Failure to to parse
response body: %s", err)` (sic, with the doubled "to"). -/
def decodeFailMsg : String :=
  "Failure to to parse response body"

/-- Handling of one batch's response (source lines 180-213). `numItems` is
the number of records in the submitted batch. On an HTTP-level error the
whole batch is counted as failed (`numErrors += numItems`) before the body
is decoded; a body that fails to decode is fatal (`log.Fatalf`), modelled
as `.error`. On an OK response the decoded items are reconciled one by
one; a decode failure is again fatal. -/
def processBatch (stats : Stats) (numItems : Nat) (body : Body) :
    Except String Stats :=
  match body with
  | .errorBody raw =>
      let stats := { stats with numErrors := stats.numErrors + numItems }
      match raw with
      | none => .error decodeFailMsg
      | some _ => .ok stats
  | .okBody blk =>
      match blk with
      | none => .error decodeFailMsg
      | some items => .ok (reconcileItems items stats)

/-- The sequential run over all submitted batches: each element pairs the
batch's record count with the response received for it. A fatal error
(`log.Fatalf` in the source) stops the run immediately. -/
def runBatches : List (Nat × Body) → Stats → Except String Stats
  | [], stats => .ok stats
  | (numItems, body) :: rest, stats =>
      match processBatch stats numItems body with
      | .error e => .error e
      | .ok stats' => runBatches rest stats'

/-- The final report (source lines 224-239): exit status 1 via `log.Fatalf`
when `numErrors > 0`, otherwise a normal exit 0. -/
def reportExit (stats : Stats) : Nat :=
  if stats.numErrors > 0 then 1 else 0

/-- The whole run followed by the final report: the process exit status,
unless a fatal error aborted the run first. -/
def runAndReport (l : List (Nat × Body)) : Except String Nat :=
  (runBatches l ⟨0, 0⟩).map reportExit

/-- The per-item failure diagnostic line (source lines 201-207):
`"  Error: [%d]: %s: %s: %s: %s"` formatted with the item's status, error
type, error reason, cause type and cause reason. -/
def itemDiagnostic (d : Item) : String :=
  "  Error: [" ++ toString d.status ++ "]: " ++ d.error.type ++ ": " ++
    d.error.reason ++ ": " ++ d.error.cause.type ++ ": " ++ d.error.cause.reason

/-- The diagnostics emitted while reconciling one itemized response: one
line per item with `status > 201`, in item order. -/
def batchDiagnostics (items : List Item) : List String :=
  (items.filter (fun d => d.status > 201)).map itemDiagnostic

/-- The deepest non-empty reason in the decoded two-level error chain:
the `caused_by` reason when it is non-empty, else the top-level reason. -/
def deepestReason (e : ItemError) : String :=
  if e.cause.reason ≠ "" then e.cause.reason else e.reason

/-- `sub` occurs contiguously inside `s`. -/
def strContains (s sub : String) : Prop :=
  List.IsInfix sub.data s.data

instance (s sub : String) : Decidable (strContains s sub) :=
  List.decidableInfix sub.data s.data

/-- A sample successfully indexed item (status 201). -/
def sampleOkItem : Item :=
  { id := "1", result := "created", status := 201,
    error := { type := "", reason := "", cause := { type := "", reason := "" } } }

/-- A sample rejected item (status 400) with a two-level error chain. -/
def sampleBadItem : Item :=
  { id := "9999", result := "", status := 400,
    error := { type := "mapper_parsing_exception", reason := "failed to parse",
               cause := { type := "json_parse_exception",
                          reason := "unexpected character" } } }

/-- A sample run: a batch of 2 records, all indexed, then a batch of 1
record that is rejected (the N=3, B=2 scenario of the specification). -/
def demoRun : List (Nat × Body) :=
  [(2, .okBody (some [sampleOkItem, sampleOkItem])),
   (1, .okBody (some [sampleBadItem]))]

end Bulk

namespace Bulk

theorem reconcileItems_cons (d : Item) (items : List Item) (s : Stats) :
    reconcileItems (d :: items) s =
      reconcileItems items
        (if d.status > 201 then { s with numErrors := s.numErrors + 1 }
         else { s with numIndexed := s.numIndexed + 1 }) := rfl

theorem reconcileItems_eq : ∀ (items : List Item) (s : Stats),
    reconcileItems items s =
      ⟨s.numIndexed + (items.filter (fun d => decide (d.status ≤ 201))).length,
       s.numErrors + (items.filter (fun d => decide (201 < d.status))).length⟩
  | [], s => by simp [reconcileItems]
  | d :: items, s => by
    rw [reconcileItems_cons]
    by_cases h : d.status > 201
    · rw [if_pos h, reconcileItems_eq items]
      have h' : ¬ d.status ≤ 201 := Nat.not_le.2 h
      simp [List.filter_cons, h, h', Nat.add_assoc, Nat.add_comm 1]
    · rw [if_neg h, reconcileItems_eq items]
      have h' : d.status ≤ 201 := Nat.not_lt.1 h
      simp [List.filter_cons, h, h', Nat.add_assoc, Nat.add_comm 1]

theorem reconcileItems_sum : ∀ (items : List Item) (s : Stats),
    (reconcileItems items s).numIndexed + (reconcileItems items s).numErrors =
      s.numIndexed + s.numErrors + items.length
  | [], s => by simp [reconcileItems]
  | d :: items, s => by
    rw [reconcileItems_cons]
    by_cases h : d.status > 201
    · rw [if_pos h, reconcileItems_sum items]
      simp only [List.length_cons]
      omega
    · rw [if_neg h, reconcileItems_sum items]
      simp only [List.length_cons]
      omega

theorem runBatches_append (l₁ l₂ : List (Nat × Body)) (s : Stats) :
    runBatches (l₁ ++ l₂) s =
      match runBatches l₁ s with
      | .error e => .error e
      | .ok m => runBatches l₂ m := by
  induction l₁ generalizing s with
  | nil => rfl
  | cons p l ih =>
    obtain ⟨n, b⟩ := p
    simp only [List.cons_append, runBatches]
    cases processBatch s n b with
    | error e => rfl
    | ok s' => exact ih s'

theorem batches_nonempty_aux (count batch : Nat) :
    ∀ (l : List Nat) (buf : List Nat) (bs : List (List Nat)),
      (∀ b ∈ bs, b ≠ []) →
      ∀ b ∈ (l.foldl (batchStep count batch) (buf, bs)).2, b ≠ []
  | [], _, _, h => by simpa using h
  | i :: l, buf, bs, h => by
    simp only [List.foldl_cons, batchStep]
    split
    · exact batches_nonempty_aux count batch l [] (bs ++ [buf ++ [i]])
        (by
          intro b hb
          rcases List.mem_append.1 hb with hb | hb
          · exact h b hb
          · simp only [List.mem_singleton] at hb
            subst hb
            simp)
    · exact batches_nonempty_aux count batch l (buf ++ [i]) bs h

theorem runBatches_sum : ∀ (l : List (Nat × Body)) (s final : Stats),
    (∀ p ∈ l, ∀ items, p.2 = Body.okBody (some items) → items.length = p.1) →
    runBatches l s = Except.ok final →
    final.numIndexed + final.numErrors =
      s.numIndexed + s.numErrors + (l.map Prod.fst).sum
  | [], _, _, _, hrun => by
    cases hrun
    simp
  | (n, b) :: l, s, final, hitems, hrun => by
    have htail : ∀ p ∈ l, ∀ items, p.2 = Body.okBody (some items) →
        items.length = p.1 :=
      fun p hp => hitems p (List.mem_cons_of_mem _ hp)
    cases b with
    | errorBody raw =>
      cases raw with
      | none => exact Except.noConfusion hrun
      | some e =>
        have h := runBatches_sum l ⟨s.numIndexed, s.numErrors + n⟩ final htail hrun
        simp only [List.map_cons, List.sum_cons] at h ⊢
        omega
    | okBody blk =>
      cases blk with
      | none => exact Except.noConfusion hrun
      | some items =>
        have hlen : items.length = n :=
          hitems (n, Body.okBody (some items)) (List.mem_cons_self _ _) items rfl
        have h := runBatches_sum l (reconcileItems items s) final htail hrun
        rw [reconcileItems_sum] at h
        simp only [List.map_cons, List.sum_cons] at h ⊢
        omega

theorem strContains_of_eq_append (s a b c : String) (h : s = a ++ b ++ c) :
    strContains s b := by
  subst h
  unfold strContains
  rw [String.data_append, String.data_append]
  exact List.infix_append _ _ _

end Bulk

namespace Bulk

/-- C1: the claim that the loop always emits exactly `⌈count/batch⌉`
batches fails: with `count = 2`, `batch = 1` the flush condition
`(i > 0 && i % batch == 0) || i == count-1` first holds at `i = 1`, so the
two records are emitted as one single batch, while the source's own
`numBatches` computation — the claimed `⌈count/batch⌉` — gives 2. -/
theorem c1_batch_count_bug :
    batches 2 1 = [[0, 1]] ∧
    numBatchesGo 2 1 = 2 ∧
    (batches 2 1).length ≠ numBatchesGo 2 1 := by
  refine ⟨by decide, by decide, by decide⟩

/-- C2: the claim that no batch ever exceeds the threshold fails: with
`count = 3`, `batch = 2` the single emitted batch holds all 3 records,
because the 0-based flush check lets the first batch absorb `batch + 1`
records. -/
theorem c2_threshold_exceeded :
    batches 3 2 = [[0, 1, 2]] ∧ ∃ b ∈ batches 3 2, 2 < b.length := by
  refine ⟨by decide, by decide⟩

/-- C3: the reconciler counts an item as indexed exactly when its status
is ≤ 201 and as failed exactly when its status is > 201; when every
status is ≤ 201 the deltas are (batch size, 0). -/
theorem c3_itemized_classification (items : List Item) :
    reconcileItems items ⟨0, 0⟩ =
      ⟨(items.filter (fun d => decide (d.status ≤ 201))).length,
       (items.filter (fun d => decide (201 < d.status))).length⟩ ∧
    ((∀ d ∈ items, d.status ≤ 201) →
      reconcileItems items ⟨0, 0⟩ = ⟨items.length, 0⟩) := by
  constructor
  · simpa using reconcileItems_eq items ⟨0, 0⟩
  · intro h
    have h1 : items.filter (fun d => decide (d.status ≤ 201)) = items :=
      List.filter_eq_self.2 (fun d hd => by simpa using h d hd)
    have h2 : items.filter (fun d => decide (201 < d.status)) = [] :=
      List.filter_eq_nil_iff.2 (fun d hd => by simpa using Nat.not_lt.2 (h d hd))
    rw [reconcileItems_eq, h1, h2]
    simp

/-- Witness for C3: an itemized response with all statuses 201 yields
indexed = batch size and failed = 0. -/
theorem c3_itemized_classification_witness :
    (∀ d ∈ [sampleOkItem, sampleOkItem], d.status ≤ 201) ∧
    reconcileItems [sampleOkItem, sampleOkItem] ⟨0, 0⟩ =
      ⟨[sampleOkItem, sampleOkItem].length, 0⟩ :=
  ⟨by decide,
   (c3_itemized_classification [sampleOkItem, sampleOkItem]).2 (by decide)⟩

/-- C4: a whole-batch failure response adds the batch's record count to
the error counter, leaves the indexed counter unchanged, and the run
continues with the next batch instead of aborting. -/
theorem c4_whole_batch_failure (s : Stats) (n : Nat) (e : WholeError)
    (rest : List (Nat × Body)) :
    processBatch s n (.errorBody (some e)) =
      .ok ⟨s.numIndexed, s.numErrors + n⟩ ∧
    runBatches ((n, .errorBody (some e)) :: rest) s =
      runBatches rest ⟨s.numIndexed, s.numErrors + n⟩ :=
  ⟨rfl, rfl⟩

/-- C5: when every itemized response carries one outcome per submitted
record, a completed run satisfies indexed + failed = total records. -/
theorem c5_indexed_plus_failed (l : List (Nat × Body)) (final : Stats)
    (hitems : ∀ p ∈ l, ∀ items, p.2 = Body.okBody (some items) →
      items.length = p.1)
    (hrun : runBatches l ⟨0, 0⟩ = .ok final) :
    final.numIndexed + final.numErrors = (l.map Prod.fst).sum := by
  simpa using runBatches_sum l ⟨0, 0⟩ final hitems hrun

/-- Witness for C5 at the N=3, B=2 demo run: final counters (2, 1) and
2 + 1 = 3 total records. -/
theorem c5_indexed_plus_failed_witness :
    (Stats.mk 2 1).numIndexed + (Stats.mk 2 1).numErrors =
      (demoRun.map Prod.fst).sum :=
  c5_indexed_plus_failed demoRun ⟨2, 1⟩
    (by
      intro p hp items heq
      simp only [demoRun, List.mem_cons, List.not_mem_nil, or_false] at hp
      rcases hp with rfl | rfl
      · simp only at heq
        injection heq with h
        injection h with h
        rw [← h]
        rfl
      · simp only at heq
        injection heq with h
        injection h with h
        rw [← h]
        rfl)
    rfl

/-- C6: when the run completes, the reported exit status is 1 exactly when
the accumulated error count is positive (regardless of the indexed count)
and 0 exactly when it is zero. -/
theorem c6_exit_status (l : List (Nat × Body)) (final : Stats)
    (hrun : runBatches l ⟨0, 0⟩ = .ok final) :
    (runAndReport l = .ok 1 ↔ 0 < final.numErrors) ∧
    (runAndReport l = .ok 0 ↔ final.numErrors = 0) := by
  constructor <;>
  · simp only [runAndReport, hrun, Except.map, reportExit]
    split <;> simp <;> omega

/-- Witness for C6 at the demo run, whose final counters are (2, 1):
one failed record makes the whole run exit non-zero. -/
theorem c6_exit_status_witness :
    (runAndReport demoRun = .ok 1 ↔ 0 < (Stats.mk 2 1).numErrors) ∧
    (runAndReport demoRun = .ok 0 ↔ (Stats.mk 2 1).numErrors = 0) :=
  c6_exit_status demoRun ⟨2, 1⟩ rfl

/-- C7: once the run reaches a batch whose response body fails to decode
— on the HTTP-error path as well as on the itemized path — the run stops
with the fatal decode message, and the responses of all later batches are
irrelevant to the outcome. -/
theorem c7_malformed_body_aborts (pre post : List (Nat × Body)) (n : Nat)
    (s mid : Stats) (hpre : runBatches pre s = .ok mid) :
    runBatches (pre ++ (n, Body.errorBody none) :: post) s =
      .error decodeFailMsg ∧
    runBatches (pre ++ (n, Body.okBody none) :: post) s =
      .error decodeFailMsg := by
  constructor
  all_goals
    rw [runBatches_append, hpre]
    rfl

/-- Witness for C7: a malformed body on the first batch aborts the run
even though a decodable batch follows. -/
theorem c7_malformed_body_aborts_witness :
    runBatches ([] ++ (2, Body.errorBody none) :: [(1, Body.okBody (some []))])
      ⟨0, 0⟩ = .error decodeFailMsg ∧
    runBatches ([] ++ (2, Body.okBody none) :: [(1, Body.okBody (some []))])
      ⟨0, 0⟩ = .error decodeFailMsg :=
  c7_malformed_body_aborts [] [(1, Body.okBody (some []))] 2 ⟨0, 0⟩ ⟨0, 0⟩ rfl

set_option maxRecDepth 10000 in
/-- C8 counterexample: for the failed item `sampleBadItem` (status 400,
identifier "9999") the emitted diagnostic line does not contain the
record's identifier — the source's log line formats only the status, the
error type and reason, and the cause type and reason. -/
theorem c8_diagnostic_omits_id :
    201 < sampleBadItem.status ∧
    ¬ strContains (itemDiagnostic sampleBadItem) sampleBadItem.id := by
  refine ⟨by decide, by decide⟩

/-- C8 (amended): for every failed item the emitted diagnostic contains
the item's status code and the deepest non-empty reason of the decoded
two-level error chain (but not the record's identifier). -/
theorem c8_diagnostic_contents (d : Item) (h : 201 < d.status) :
    strContains (itemDiagnostic d) (toString d.status) ∧
    strContains (itemDiagnostic d) (deepestReason d.error) := by
  refine ⟨?_, ?_⟩
  · exact strContains_of_eq_append _ "  Error: [" _
      ("]: " ++ d.error.type ++ ": " ++ d.error.reason ++ ": " ++
        d.error.cause.type ++ ": " ++ d.error.cause.reason)
      (by simp [itemDiagnostic, String.append_assoc])
  · unfold deepestReason
    split
    · exact strContains_of_eq_append _
        ("  Error: [" ++ toString d.status ++ "]: " ++ d.error.type ++ ": " ++
          d.error.reason ++ ": " ++ d.error.cause.type ++ ": ") _ ""
        (by simp [itemDiagnostic, String.append_assoc, String.append_empty])
    · exact strContains_of_eq_append _
        ("  Error: [" ++ toString d.status ++ "]: " ++ d.error.type ++ ": ") _
        (": " ++ d.error.cause.type ++ ": " ++ d.error.cause.reason)
        (by simp [itemDiagnostic, String.append_assoc])

set_option maxRecDepth 10000 in
/-- Witness for the amended C8 at the failed item `sampleBadItem`. -/
theorem c8_diagnostic_contents_witness :
    strContains (itemDiagnostic sampleBadItem) (toString sampleBadItem.status) ∧
    strContains (itemDiagnostic sampleBadItem) (deepestReason sampleBadItem.error) :=
  c8_diagnostic_contents sampleBadItem (by decide)

set_option maxRecDepth 10000 in
/-- C9: at the default configuration (count = 1000, batch = 75) the loop
emits 14 batches, but their sizes are 76, then twelve times 75, then 24 —
the final batch has 24 records, not the claimed 25, because the first
batch absorbs 76. -/
theorem c9_default_batch_sizes :
    (batches 1000 75).map List.length =
      [76, 75, 75, 75, 75, 75, 75, 75, 75, 75, 75, 75, 75, 24] ∧
    numBatchesGo 1000 75 = 14 := by
  refine ⟨by decide, by decide⟩

/-- C10: every emitted batch is non-empty, so no empty payload is ever
submitted to the bulk endpoint. -/
theorem c10_batches_nonempty (count batch : Nat)
    (h1 : 1 ≤ count) (h2 : 1 ≤ batch) :
    ∀ b ∈ batches count batch, b ≠ [] :=
  batches_nonempty_aux count batch (List.range count) [] []
    (fun b hb => absurd hb (List.not_mem_nil b))

/-- Witness for C10 at count = 3, batch = 2. -/
theorem c10_batches_nonempty_witness :
    (1 ≤ 3 ∧ 1 ≤ 2) ∧ ∀ b ∈ batches 3 2, b ≠ [] :=
  ⟨⟨by decide, by decide⟩, c10_batches_nonempty 3 2 (by decide) (by decide)⟩

end Bulk

